import Mathlib

/-
Verification of the Swag Store backend (src/main.py): a shallow embedding of
its data normalization, cart enrichment, and request-handler logic, and proofs
of the specified properties.

Stored documents are loosely typed key-value records; we model the Python/BSON
value universe with an inductive type. Python operations that can raise are
embedded as Option-valued functions (none = an exception escapes to the
framework / the surrounding try-except, surfacing as an HTTP 500).
-/

namespace SwagStore

/-- The universe of values that can occur in a stored document or a JSON
body: None, booleans, integers, non-integer numbers (floats, modelled as
rationals), strings, lists, nested documents, and BSON object ids. -/
inductive Val where
| vnull : Val
| vbool : Bool → Val
| vint : Int → Val
| vnum : Rat → Val
| vstr : String → Val
| vlist : List Val → Val
| vdoc : List (String × Val) → Val
| vobjid : String → Val

/-- A raw stored document: an ordered key-value record. -/
def RawDoc : Type := List (String × Val)

/-- Look up a key in a document, as an Option (first binding wins; stored
documents have distinct keys). -/
def dictGet (d : RawDoc) (k : String) : Option Val :=
  (d.find? (fun kv => kv.1 == k)).map (fun kv => kv.2)

/-- Python dict.get with no default: None when the key is absent. -/
def pyGet (d : RawDoc) (k : String) : Val :=
  (dictGet d k).getD Val.vnull

/-- Python dict.get with a default: the default only when the key is absent
(a stored None stays None). -/
def pyGetD (d : RawDoc) (k : String) (dflt : Val) : Val :=
  (dictGet d k).getD dflt

/-- Python truthiness, as used by bool(...) and the x or y idiom: None,
False, 0, empty string, empty list and empty dict are falsy. -/
def truthy : Val → Bool
| Val.vnull => false
| Val.vbool b => b
| Val.vint n => if n = 0 then false else true
| Val.vnum q => if q = 0 then false else true
| Val.vstr s => if s = "" then false else true
| Val.vlist [] => false
| Val.vlist (_ :: _) => true
| Val.vdoc [] => false
| Val.vdoc (_ :: _) => true
| Val.vobjid _ => true

/-- Numeric value of a digit list (validity of the digits is checked by the
caller). -/
def digitsVal (cs : List Char) : Nat :=
  cs.foldl (fun acc c => acc * 10 + (c.toNat - 48)) 0

/-- Python float() applied to a string: parses an optional sign followed by a
decimal literal, requiring at least one digit; anything else raises
ValueError (none). Exotic accepted forms (exponents, inf/nan, surrounding
whitespace) are not exercised by the stored data modelled here. -/
def parsePyFloat (s : String) : Option Rat :=
  let cs := s.toList
  let signAndRest : Rat × List Char :=
    match cs with
    | '-' :: t => (-1, t)
    | '+' :: t => (1, t)
    | t => (1, t)
  let sign := signAndRest.1
  let rest := signAndRest.2
  let intPart := rest.takeWhile Char.isDigit
  let rest2 := rest.dropWhile Char.isDigit
  match rest2 with
  | [] =>
      if intPart.isEmpty then none
      else some (sign * (digitsVal intPart : Rat))
  | '.' :: frac =>
      if frac.all Char.isDigit && !(intPart.isEmpty && frac.isEmpty) then
        some (sign * ((digitsVal intPart : Rat)
          + (digitsVal frac : Rat) / ((10 : Rat) ^ frac.length)))
      else none
  | _ => none

/-- Python float() applied to an arbitrary value: numbers and booleans
coerce, numeric strings parse, everything else (None, lists, dicts, object
ids) raises (none). -/
def pyFloat : Val → Option Rat
| Val.vint n => some (n : Rat)
| Val.vnum q => some q
| Val.vbool b => some (if b then 1 else 0)
| Val.vstr s => parsePyFloat s
| _ => none

/-- Python str() of a value, used only to render document identifiers; the
ids that occur are object ids or strings, rendered exactly; other cases are
rendered by their Python literal form (scalars) or abbreviated (containers,
which never occur as ids in this system). -/
def pyStr : Val → String
| Val.vnull => "None"
| Val.vbool b => if b then "True" else "False"
| Val.vint n => toString n
| Val.vnum q => toString q
| Val.vstr s => s
| Val.vobjid s => s
| Val.vlist _ => "<list>"
| Val.vdoc _ => "<dict>"

/-- Hexadecimal digit test, as accepted by ObjectId parsing. -/
def isHexChar (c : Char) : Bool :=
  c.isDigit || ('a' ≤ c && c ≤ 'f') || ('A' ≤ c && c ≤ 'F')

/-- bson ObjectId.is_valid on a string: exactly 24 hexadecimal characters. -/
def isValidObjectId (s : String) : Bool :=
  s.length == 24 && s.toList.all isHexChar

/-- ObjectId.is_valid on an arbitrary value: an already-constructed ObjectId
is valid, a string is valid iff 24 hex chars, every other type is invalid. -/
def isValidOidVal : Val → Bool
| Val.vstr s => isValidObjectId s
| Val.vobjid _ => true
| _ => false

/-- The fixed default size list used throughout main.py. -/
def defaultSizes : Val :=
  Val.vlist [Val.vstr "XS", Val.vstr "S", Val.vstr "M", Val.vstr "L",
             Val.vstr "XL"]

/-- The shared sizes-defaulting idiom: raw or default, with Python or
semantics (a falsy stored value, i.e. absent, None, or an empty list, is
replaced by the default list). Lines 39, 62 and 83 of main.py. -/
def effectiveSizes (rawSizes : Val) : Val :=
  if truthy rawSizes then rawSizes else defaultSizes

/-- Modelled from the spec: the Product entity schema (schemas.py is not
among the sources). Per section 4.1 of the spec the schema records the
fields handed to it by the normalization layer, which in list_products has
already applied every coercion and default; the schema itself adds no
further transformation. -/
structure Product where
  title : Val
  description : Val
  price : Rat
  in_stock : Bool
  category : Val
  sizes : Val
  image : Val

/-- One iteration of the normalization loop of list_products (main.py lines
33-41), the public form of normalize_product. Field defaults follow
dict.get; price goes through float(), which raises (none) on a present
non-coercible value; in_stock goes through bool(); sizes uses the
raw-or-default idiom. -/
def normalize_product (it : RawDoc) : Option Product :=
  match pyFloat (pyGetD it "price" (Val.vint 0)) with
  | none => none
  | some q =>
      some { title := pyGetD it "title" (Val.vstr "Untitled")
             description := pyGet it "description"
             price := q
             in_stock := truthy (pyGetD it "in_stock" (Val.vbool true))
             category := pyGetD it "category" (Val.vstr "apparel")
             sizes := effectiveSizes (pyGet it "sizes")
             image := pyGet it "image" }

/-- GET /products (main.py lines 28-45): fetch all product documents and
normalize each; any exception inside the loop is caught by the surrounding
try-except and surfaces as a 500 (none). -/
def list_products (items : List RawDoc) : Option (List Product) :=
  items.mapM normalize_product

/-- The full form of a normalized product, with the store identifier
rendered as text (main.py lines 55-64); title, description, category and
image pass through dict.get with no default. -/
structure FullProduct where
  oid : String
  title : Val
  description : Val
  price : Rat
  category : Val
  in_stock : Bool
  sizes : Val
  image : Val

/-- One iteration of the loop of list_products_full (main.py lines 54-64):
the same price/in_stock/sizes rules as the public form, identifier included
as str(it.get("_id")), title/description/category/image passed through. -/
def normalize_product_full (it : RawDoc) : Option FullProduct :=
  match pyFloat (pyGetD it "price" (Val.vint 0)) with
  | none => none
  | some q =>
      some { oid := pyStr (pyGet it "_id")
             title := pyGet it "title"
             description := pyGet it "description"
             price := q
             category := pyGet it "category"
             in_stock := truthy (pyGetD it "in_stock" (Val.vbool true))
             sizes := effectiveSizes (pyGet it "sizes")
             image := pyGet it "image" }

/-- GET /products-full (main.py lines 49-67). -/
def list_products_full (items : List RawDoc) : Option (List FullProduct) :=
  items.mapM normalize_product_full

/-- The POST /cart body schema (main.py lines 70-73): product_id and size
are required strings, quantity an integer defaulting to 1. -/
structure AddToCartRequest where
  product_id : String
  size : String
  quantity : Int

/-- Body validation for AddToCartRequest: required string fields, and an
integer quantity that defaults to 1 exactly when the key is omitted
(the schema declares quantity with default value 1 and no lower bound). -/
def parseAddToCart (d : RawDoc) : Option AddToCartRequest :=
  match dictGet d "product_id", dictGet d "size" with
  | some (Val.vstr pid), some (Val.vstr sz) =>
      match dictGet d "quantity" with
      | none => some { product_id := pid, size := sz, quantity := 1 }
      | some (Val.vint n) => some { product_id := pid, size := sz, quantity := n }
      | some _ => none
  | _, _ => none

/-- Python string equality of a size candidate against a list element: a
string only ever equals another string. -/
def matchesStr (s : String) : Val → Bool
| Val.vstr t => t == s
| _ => false

/-- Substring occurrence test (the needle occurs contiguously inside the
haystack), the meaning of the Python in operator on strings. -/
def containsSub (needle hay : String) : Bool :=
  (List.range (hay.length + 1)).any
    (fun i => needle.toList.isPrefixOf (hay.toList.drop i))

/-- The Python in operator with a string on the left (main.py line 83):
membership for lists, substring for strings, key membership for dicts, and
TypeError (none) for every other right-hand type. -/
def pyMem (s : String) : Val → Option Bool
| Val.vlist l => some (l.any (matchesStr s))
| Val.vstr t => some (containsSub s t)
| Val.vdoc d => some (d.any (fun kv => kv.1 == s))
| _ => none

/-- The outcome of POST /cart: a 400, a 404, or a 201 with the new cart
item id (detail strings as in main.py). -/
inductive AddResult where
| badRequest : String → AddResult
| notFound : String → AddResult
| created : String → AddResult

/-- Modelled from the spec: the document inserted by the store gateway for a
cart item (database.py is not among the sources; per the spec the gateway
insert stores the given document and assigns it an opaque identifier). The
fields are exactly those written by add_to_cart (main.py lines 87-91). -/
def cartItemDoc (body : AddToCartRequest) (newId : String) : RawDoc :=
  [("_id", Val.vobjid newId),
   ("product_id", Val.vstr body.product_id),
   ("size", Val.vstr body.size),
   ("quantity", Val.vint body.quantity)]

/-- POST /cart (main.py lines 77-94). find is the product lookup by object
id (the find-by-id lookup of the gateway, keyed by the 24-hex id string), cart the
stored cart collection, newId the identifier the store assigns on insert.
Checks run in source order: id well-formedness, product existence, size
membership in the raw-or-default size value; only then is the cart item
inserted. A TypeError from the in operator (non-container sizes value)
escapes uncaught (none). -/
def add_to_cart (find : String → Option RawDoc) (cart : List RawDoc)
    (body : AddToCartRequest) (newId : String) :
    Option (AddResult × List RawDoc) :=
  if !isValidObjectId body.product_id then
    some (AddResult.badRequest "Invalid product id", cart)
  else
    match find body.product_id with
    | none => some (AddResult.notFound "Product not found", cart)
    | some prod =>
        match pyMem body.size (effectiveSizes (pyGet prod "sizes")) with
        | none => none
        | some mem =>
            if !mem then
              some (AddResult.badRequest "Invalid size for this product", cart)
            else
              some (AddResult.created newId, cart ++ [cartItemDoc body newId])

/-- One enriched cart entry as produced by GET /cart (main.py lines
105-113). -/
structure CartView where
  id : String
  product_id : Val
  size : Val
  quantity : Val
  title : Val
  price : Rat
  image : Val

/-- Product resolution for a cart item (main.py line 104): the lookup runs
only when the stored product_id is a validly-formed identifier (a 24-hex
string or an ObjectId); otherwise the product is absent without error. -/
def resolveProduct (find : String → Option RawDoc) (pid : Val) :
    Option RawDoc :=
  match pid with
  | Val.vstr s => if isValidObjectId s then find s else none
  | Val.vobjid s => find s
  | _ => none

/-- One iteration of the enrichment loop of get_cart (main.py lines
102-113): pid defaults to the empty string, size and quantity come from the
cart item, title/price/image from the resolved product or null/0/null when
it is unresolved; float() on a resolved product with a present non-coercible
price raises (none, caught as a 500 for the whole endpoint). -/
def enrich_cart_item (find : String → Option RawDoc) (it : RawDoc) :
    Option CartView :=
  let pid := pyGetD it "product_id" (Val.vstr "")
  match resolveProduct find pid with
  | none =>
      some { id := pyStr (pyGet it "_id")
             product_id := pid
             size := pyGet it "size"
             quantity := pyGetD it "quantity" (Val.vint 1)
             title := Val.vnull
             price := 0
             image := Val.vnull }
  | some prod =>
      match pyFloat (pyGetD prod "price" (Val.vint 0)) with
      | none => none
      | some q =>
          some { id := pyStr (pyGet it "_id")
                 product_id := pid
                 size := pyGet it "size"
                 quantity := pyGetD it "quantity" (Val.vint 1)
                 title := pyGet prod "title"
                 price := q
                 image := pyGet prod "image" }

/-- GET /cart (main.py lines 98-116): enrich every stored cart item in
store iteration order; any exception in the loop surfaces as a 500. -/
def get_cart (find : String → Option RawDoc) (items : List RawDoc) :
    Option (List CartView) :=
  items.mapM (enrich_cart_item find)

/-- The fixed demo products inserted by GET /seed (main.py lines 138-166). -/
def seedProductsList : List RawDoc :=
  [[("title", Val.vstr "Nebula Sheen Hoodie"),
    ("description", Val.vstr
      "Gloss vinyl sheen with soft-core cotton. Y2K gradients, reflective piping."),
    ("price", Val.vnum 89),
    ("category", Val.vstr "hoodies"),
    ("in_stock", Val.vbool true),
    ("sizes", Val.vlist [Val.vstr "S", Val.vstr "M", Val.vstr "L", Val.vstr "XL"]),
    ("image", Val.vstr
      "https://images.unsplash.com/photo-1520975916090-3105956dac38?q=80&w=1600&auto=format&fit=crop")],
   [("title", Val.vstr "Chrome Ripple Tee"),
    ("description", Val.vstr
      "Liquid chrome graphic, oversized cut. Opium club energy."),
    ("price", Val.vnum 45),
    ("category", Val.vstr "tshirts"),
    ("in_stock", Val.vbool true),
    ("sizes", Val.vlist [Val.vstr "XS", Val.vstr "S", Val.vstr "M", Val.vstr "L"]),
    ("image", Val.vstr
      "https://images.unsplash.com/photo-1490481651871-ab68de25d43d?q=80&w=1600&auto=format&fit=crop")],
   [("title", Val.vstr "Ultra Violet Cargo"),
    ("description", Val.vstr
      "Parachute cargos with iridescent straps and cinch toggles."),
    ("price", Val.vnum 110),
    ("category", Val.vstr "pants"),
    ("in_stock", Val.vbool true),
    ("sizes", Val.vlist [Val.vstr "S", Val.vstr "M", Val.vstr "L"]),
    ("image", Val.vstr
      "https://images.unsplash.com/photo-1532890162909-9f2bff5f7c1a?q=80&w=1600&auto=format&fit=crop")]]

/-- The GET /seed response (main.py lines 136 and 169). -/
structure SeedResult where
  seeded : Bool
  message : Option String
  count : Option Nat

/-- GET /seed (main.py lines 131-171) over the product collection, with the
count and insert operations of the store gateway modelled per the spec as the length of and
appending to the stored list: when products already exist, report not
seeded and change nothing; otherwise insert the three demo products in
order and report their count. -/
def seed_products (products : List RawDoc) : SeedResult × List RawDoc :=
  if products.length > 0 then
    ({ seeded := false, message := some "Products already exist", count := none },
     products)
  else
    ({ seeded := true, message := none, count := some seedProductsList.length },
     products ++ seedProductsList)

/-- Modelled from the spec: the database handle exposed by database.py
(not among the sources); per the spec it carries the database name and a
list-collection-names operation that may fail with a driver error. -/
structure DbHandle where
  name : String
  collections : Except String (List String)

/-- The GET /test diagnostic response (main.py lines 176-183); the url and
name fields start as None and are overwritten before returning. -/
structure TestResponse where
  backend : String
  database : String
  database_url : Option String
  database_name : Option String
  connection_status : String
  collections : List String

/-- Truthiness of os.getenv(k): set and non-empty. -/
def envTruthy (env : String → Option String) (k : String) : Bool :=
  match env k with
  | some v => if v = "" then false else true
  | none => false

/-- GET /test (main.py lines 175-205). env is os.getenv. Whatever the
database branch wrote into database_url and database_name, lines 202-203
unconditionally overwrite both with presence-only flags derived from the
truthiness of DATABASE_URL and DATABASE_NAME; the handler never raises (it
is a total function: every failure is folded into the status strings). -/
def test_database (db : Option DbHandle) (env : String → Option String) :
    TestResponse :=
  let r0 : TestResponse :=
    { backend := "✅ Running"
      database := "❌ Not Available"
      database_url := none
      database_name := none
      connection_status := "Not Connected"
      collections := [] }
  let r1 :=
    match db with
    | some h =>
        let a := { r0 with database := "✅ Available",
                           database_url := some "✅ Configured",
                           database_name := some h.name,
                           connection_status := "Connected" }
        match h.collections with
        | Except.ok cs =>
            { a with collections := cs.take 10,
                     database := "✅ Connected & Working" }
        | Except.error e =>
            { a with database := "⚠️  Connected but Error: " ++ e.take 50 }
    | none => { r0 with database := "⚠️  Available but not initialized" }
  { r1 with
      database_url :=
        some (if envTruthy env "DATABASE_URL" then "✅ Set" else "❌ Not Set")
      database_name :=
        some (if envTruthy env "DATABASE_NAME" then "✅ Set" else "❌ Not Set") }

/-! Section: Helper lemmas -/

/-- Normalization only fails on the price coercion: its success is exactly
the success of float() on the raw-or-defaulted price value. -/
lemma normalize_product_isSome (it : RawDoc) :
    (normalize_product it).isSome
      = (pyFloat (pyGetD it "price" (Val.vint 0))).isSome := by
  unfold normalize_product
  cases pyFloat (pyGetD it "price" (Val.vint 0)) <;> rfl

/-- Whenever the public normalization succeeds, its sizes field is the
raw-or-default size value. -/
lemma normalize_product_sizes (it : RawDoc) (p : Product)
    (h : normalize_product it = some p) :
    p.sizes = effectiveSizes (pyGet it "sizes") := by
  unfold normalize_product at h
  cases hf : pyFloat (pyGetD it "price" (Val.vint 0)) with
  | none => rw [hf] at h; exact absurd h (by simp)
  | some q => rw [hf] at h; cases h; rfl

/-- Whenever the public normalization succeeds, its price field is the
float()-coerced raw-or-defaulted price. -/
lemma normalize_product_price (it : RawDoc) (p : Product)
    (h : normalize_product it = some p) :
    pyFloat (pyGetD it "price" (Val.vint 0)) = some p.price := by
  unfold normalize_product at h
  cases hf : pyFloat (pyGetD it "price" (Val.vint 0)) with
  | none => rw [hf] at h; exact absurd h (by simp)
  | some q => rw [hf] at h; cases h; rfl

/-- Whenever the full normalization succeeds, its sizes field is the
raw-or-default size value. -/
lemma normalize_product_full_sizes (it : RawDoc) (f : FullProduct)
    (h : normalize_product_full it = some f) :
    f.sizes = effectiveSizes (pyGet it "sizes") := by
  unfold normalize_product_full at h
  cases hf : pyFloat (pyGetD it "price" (Val.vint 0)) with
  | none => rw [hf] at h; exact absurd h (by simp)
  | some q => rw [hf] at h; cases h; rfl

/-- A non-empty list value is truthy, so the raw-or-default idiom keeps it. -/
lemma effectiveSizes_nonempty_list (l : List Val) (hl : l ≠ []) :
    effectiveSizes (Val.vlist l) = Val.vlist l := by
  cases l with
  | nil => exact absurd rfl hl
  | cons a t => rfl

/-! Section: C1 -/

/-- C1 counterexample: normalization is not total. On the raw document
with a present non-numeric price, float() raises and list_products fails
with a 500 instead of substituting the schema default. -/
theorem C1_counterexample :
    normalize_product [("price", Val.vstr "bad")] = none
    ∧ list_products [[("price", Val.vstr "bad")]] = none :=
  ⟨rfl, rfl⟩

/-- C1 (amended): product normalization completes without raising exactly
when float() succeeds on the raw price (defaulted to 0 when the key is
absent); in particular it always completes when the price key is missing,
but a present non-coercible price raises instead of being replaced by the
schema default. -/
theorem C1_normalization_totality :
    ∀ it : RawDoc,
      ((normalize_product it).isSome
        = (pyFloat (pyGetD it "price" (Val.vint 0))).isSome)
      ∧ (dictGet it "price" = none → (normalize_product it).isSome = true) := by
  intro it
  refine ⟨normalize_product_isSome it, fun h => ?_⟩
  rw [normalize_product_isSome it]
  unfold pyGetD
  rw [h]
  rfl

/-- C1 witness: the amended theorem applied to a concrete document with no
price key. -/
theorem C1_witness :
    dictGet [("title", Val.vstr "Tee")] "price" = none
    ∧ (normalize_product [("title", Val.vstr "Tee")]).isSome = true :=
  ⟨rfl, (C1_normalization_totality [("title", Val.vstr "Tee")]).2 rfl⟩

/-! Section: C2 -/

/-- C2 counterexample: the example document of the spec does not normalize at
all — its non-numeric price "bad" makes float() raise (a 500), rather than
normalizing to price 0. -/
theorem C2_counterexample :
    normalize_product
      [("title", Val.vstr "Tee"), ("price", Val.vstr "bad"),
       ("sizes", Val.vlist [])] = none :=
  rfl

/-- C2 (amended): with the price key absent instead of non-numeric, the
example document normalizes in public form to exactly the claimed value,
and in general a missing price normalizes to price 0; a present non-numeric
price instead raises. -/
theorem C2_absent_price_defaults :
    (normalize_product [("title", Val.vstr "Tee"), ("sizes", Val.vlist [])]
      = some { title := Val.vstr "Tee", description := Val.vnull, price := 0,
               in_stock := true, category := Val.vstr "apparel",
               sizes := defaultSizes, image := Val.vnull })
    ∧ (∀ (it : RawDoc) (p : Product), dictGet it "price" = none →
        normalize_product it = some p → p.price = 0) := by
  refine ⟨rfl, fun it p h hp => ?_⟩
  have hc := normalize_product_price it p hp
  unfold pyGetD at hc
  rw [h] at hc
  simp only [Option.getD_none] at hc
  have h0 : pyFloat (Val.vint 0) = some 0 := by simp [pyFloat]
  rw [h0] at hc
  exact (Option.some.inj hc).symm

/-- C2 witness: the general part of the amended theorem applied to a
concrete document with no price key. -/
theorem C2_witness :
    dictGet [("title", Val.vstr "Cap")] "price" = none
    ∧ normalize_product [("title", Val.vstr "Cap")]
        = some { title := Val.vstr "Cap", description := Val.vnull, price := 0,
                 in_stock := true, category := Val.vstr "apparel",
                 sizes := defaultSizes, image := Val.vnull }
    ∧ (0 : Rat) = 0 :=
  ⟨rfl, rfl, C2_absent_price_defaults.2 [("title", Val.vstr "Cap")]
    { title := Val.vstr "Cap", description := Val.vnull, price := 0,
      in_stock := true, category := Val.vstr "apparel",
      sizes := defaultSizes, image := Val.vnull } rfl rfl⟩

/-! Section: C3 -/

/-- C3: the sizes rule. Whenever normalization produces an output, a
non-empty stored sizes list is preserved exactly and in order, while an
absent or empty sizes field yields the default list, and the same rule
holds in the public form (list_products) and the full form
(list_products_full). -/
theorem C3_sizes_rule :
    ∀ (it : RawDoc) (l : List Val),
      (dictGet it "sizes" = some (Val.vlist l) → l ≠ [] →
        (∀ p, normalize_product it = some p → p.sizes = Val.vlist l)
        ∧ (∀ f, normalize_product_full it = some f → f.sizes = Val.vlist l))
      ∧ ((dictGet it "sizes" = none ∨ dictGet it "sizes" = some (Val.vlist [])) →
        (∀ p, normalize_product it = some p → p.sizes = defaultSizes)
        ∧ (∀ f, normalize_product_full it = some f → f.sizes = defaultSizes)) := by
  intro it l
  constructor
  · intro hs hl
    have hv : pyGet it "sizes" = Val.vlist l := by
      unfold pyGet; rw [hs]; rfl
    have he : effectiveSizes (pyGet it "sizes") = Val.vlist l := by
      rw [hv]; exact effectiveSizes_nonempty_list l hl
    exact ⟨fun p hp => by rw [normalize_product_sizes it p hp, he],
           fun f hf => by rw [normalize_product_full_sizes it f hf, he]⟩
  · intro hs
    have he : effectiveSizes (pyGet it "sizes") = defaultSizes := by
      rcases hs with h | h <;> unfold pyGet <;> rw [h] <;> rfl
    exact ⟨fun p hp => by rw [normalize_product_sizes it p hp, he],
           fun f hf => by rw [normalize_product_full_sizes it f hf, he]⟩

/-- C3 witness: the sizes rule applied to a concrete document carrying the
non-empty list of sizes S and M. -/
theorem C3_witness :
    dictGet [("sizes", Val.vlist [Val.vstr "S", Val.vstr "M"])] "sizes"
      = some (Val.vlist [Val.vstr "S", Val.vstr "M"])
    ∧ ([Val.vstr "S", Val.vstr "M"] : List Val) ≠ []
    ∧ normalize_product [("sizes", Val.vlist [Val.vstr "S", Val.vstr "M"])]
        = some { title := Val.vstr "Untitled", description := Val.vnull,
                 price := 0, in_stock := true, category := Val.vstr "apparel",
                 sizes := Val.vlist [Val.vstr "S", Val.vstr "M"],
                 image := Val.vnull }
    ∧ Val.vlist [Val.vstr "S", Val.vstr "M"]
        = Val.vlist [Val.vstr "S", Val.vstr "M"] :=
  ⟨rfl, by simp,
   rfl,
   ((C3_sizes_rule [("sizes", Val.vlist [Val.vstr "S", Val.vstr "M"])]
      [Val.vstr "S", Val.vstr "M"]).1 rfl (by simp)).1
     { title := Val.vstr "Untitled", description := Val.vnull,
       price := 0, in_stock := true, category := Val.vstr "apparel",
       sizes := Val.vlist [Val.vstr "S", Val.vstr "M"],
       image := Val.vnull } rfl⟩

/-! Section: C4 -/

/-- C4: add_to_cart classifies exactly as specified — a malformed
product_id gives a 400, a well-formed id with no matching product gives a
404, and, once the sizes of the product resolve (via the raw-or-default idiom)
to a list, a size outside that list gives a 400 while a size inside it
inserts the cart item and returns the new identifier. -/
theorem C4_add_to_cart_classification :
    ∀ (find : String → Option RawDoc) (cart : List RawDoc)
      (body : AddToCartRequest) (newId : String),
      (isValidObjectId body.product_id = false →
        add_to_cart find cart body newId
          = some (AddResult.badRequest "Invalid product id", cart))
      ∧ (isValidObjectId body.product_id = true →
          find body.product_id = none →
          add_to_cart find cart body newId
            = some (AddResult.notFound "Product not found", cart))
      ∧ (∀ (prod : RawDoc) (l : List Val),
          isValidObjectId body.product_id = true →
          find body.product_id = some prod →
          effectiveSizes (pyGet prod "sizes") = Val.vlist l →
          (l.any (matchesStr body.size) = false →
            add_to_cart find cart body newId
              = some (AddResult.badRequest "Invalid size for this product", cart))
          ∧ (l.any (matchesStr body.size) = true →
            add_to_cart find cart body newId
              = some (AddResult.created newId, cart ++ [cartItemDoc body newId]))) := by
  intro find cart body newId
  refine ⟨fun hv => ?_, fun hv hf => ?_,
          fun prod l hv hf hs => ⟨fun hm => ?_, fun hm => ?_⟩⟩
  · unfold add_to_cart; rw [hv]; rfl
  · unfold add_to_cart; rw [hv, hf]; rfl
  · simp [add_to_cart, hv, hf, hs, pyMem, hm]
  · simp [add_to_cart, hv, hf, hs, pyMem, hm]

/-- C4 witness: the created branch of the classification at a concrete
store whose only product offers size M. -/
theorem C4_witness :
    isValidObjectId "0123456789abcdef01234567" = true
    ∧ (fun s => if s == "0123456789abcdef01234567"
         then some ([("sizes", Val.vlist [Val.vstr "M"])] : RawDoc)
         else none) "0123456789abcdef01234567"
        = some [("sizes", Val.vlist [Val.vstr "M"])]
    ∧ effectiveSizes (pyGet [("sizes", Val.vlist [Val.vstr "M"])] "sizes")
        = Val.vlist [Val.vstr "M"]
    ∧ [Val.vstr "M"].any (matchesStr "M") = true
    ∧ add_to_cart
        (fun s => if s == "0123456789abcdef01234567"
           then some ([("sizes", Val.vlist [Val.vstr "M"])] : RawDoc)
           else none)
        []
        { product_id := "0123456789abcdef01234567", size := "M", quantity := 2 }
        "aaaaaaaaaaaaaaaaaaaaaaaa"
      = some (AddResult.created "aaaaaaaaaaaaaaaaaaaaaaaa",
          [cartItemDoc
            { product_id := "0123456789abcdef01234567", size := "M", quantity := 2 }
            "aaaaaaaaaaaaaaaaaaaaaaaa"]) :=
  ⟨by decide, rfl, rfl, rfl,
   ((C4_add_to_cart_classification
      (fun s => if s == "0123456789abcdef01234567"
         then some ([("sizes", Val.vlist [Val.vstr "M"])] : RawDoc)
         else none)
      []
      { product_id := "0123456789abcdef01234567", size := "M", quantity := 2 }
      "aaaaaaaaaaaaaaaaaaaaaaaa").2.2
     [("sizes", Val.vlist [Val.vstr "M"])] [Val.vstr "M"]
     (by decide) rfl rfl).2 rfl⟩

/-! Section: C5 -/

/-- C5: seed_products is idempotent in effect — on an empty product
collection it inserts exactly the 3 demo products and reports seeded=true
with count=3, and an immediately following call (or any call on a
non-empty collection) reports seeded=false and changes nothing. -/
theorem C5_seed_idempotent :
    ∀ products : List RawDoc,
      (products = [] →
        (seed_products products).1.seeded = true
        ∧ (seed_products products).1.count = some 3
        ∧ (seed_products products).2.length = 3
        ∧ (seed_products (seed_products products).2).1.seeded = false
        ∧ (seed_products (seed_products products).2).2
            = (seed_products products).2)
      ∧ (products ≠ [] →
        (seed_products products).1.seeded = false
        ∧ (seed_products products).2 = products) := by
  intro products
  constructor
  · rintro rfl
    refine ⟨rfl, rfl, rfl, ?_, ?_⟩ <;> rfl
  · intro h
    cases products with
    | nil => exact absurd rfl h
    | cons a t => exact ⟨by simp [seed_products], by simp [seed_products]⟩

/-- C5 witness: both branches of the idempotence theorem at concrete
collections (the empty one, and a singleton). -/
theorem C5_witness :
    (([] : List RawDoc) = []
      ∧ (seed_products []).1.seeded = true
      ∧ (seed_products []).1.count = some 3
      ∧ (seed_products (seed_products []).2).1.seeded = false)
    ∧ (([[("title", Val.vstr "X")]] : List RawDoc) ≠ []
      ∧ (seed_products [[("title", Val.vstr "X")]]).2
          = [[("title", Val.vstr "X")]]) :=
  ⟨⟨rfl, ((C5_seed_idempotent []).1 rfl).1,
    ((C5_seed_idempotent []).1 rfl).2.1,
    ((C5_seed_idempotent []).1 rfl).2.2.2.1⟩,
   ⟨by simp, ((C5_seed_idempotent [[("title", Val.vstr "X")]]).2 (by simp)).2⟩⟩

/-! Section: C6 -/

/-- C6: graceful degradation in get_cart. A malformed stored product_id
never resolves, an absent lookup never resolves, and whenever the product
is unresolved the enriched entry is produced without error with title=null,
price=0, image=null while size and quantity come from the cart item. -/
theorem C6_cart_degrades :
    ∀ find : String → Option RawDoc,
      (∀ pid : Val, isValidOidVal pid = false → resolveProduct find pid = none)
      ∧ (∀ s : String, isValidObjectId s = true → find s = none →
          resolveProduct find (Val.vstr s) = none)
      ∧ (∀ it : RawDoc,
          resolveProduct find (pyGetD it "product_id" (Val.vstr "")) = none →
          enrich_cart_item find it
            = some { id := pyStr (pyGet it "_id")
                     product_id := pyGetD it "product_id" (Val.vstr "")
                     size := pyGet it "size"
                     quantity := pyGetD it "quantity" (Val.vint 1)
                     title := Val.vnull
                     price := 0
                     image := Val.vnull }) := by
  intro find
  refine ⟨fun pid hp => ?_, fun s hv hf => ?_, fun it h => ?_⟩
  · cases pid with
    | vstr s =>
        simp only [isValidOidVal] at hp
        simp [resolveProduct, hp]
    | vobjid s => exact absurd hp (by simp [isValidOidVal])
    | vnull => rfl
    | vbool b => rfl
    | vint n => rfl
    | vnum q => rfl
    | vlist l => rfl
    | vdoc d => rfl
  · simp [resolveProduct, hv, hf]
  · simp only [enrich_cart_item, h]

/-- C6 witness: a concrete cart item whose stored product_id is not a
well-formed identifier degrades to the null/0/null view while keeping its
size and quantity. -/
theorem C6_witness :
    resolveProduct (fun _ => none)
      (pyGetD [("product_id", Val.vstr "gone"), ("size", Val.vstr "L"),
               ("quantity", Val.vint 4)] "product_id" (Val.vstr "")) = none
    ∧ enrich_cart_item (fun _ => none)
        [("product_id", Val.vstr "gone"), ("size", Val.vstr "L"),
         ("quantity", Val.vint 4)]
      = some { id := "None", product_id := Val.vstr "gone",
               size := Val.vstr "L", quantity := Val.vint 4,
               title := Val.vnull, price := 0, image := Val.vnull } :=
  ⟨rfl,
   (C6_cart_degrades (fun _ => none)).2.2
     [("product_id", Val.vstr "gone"), ("size", Val.vstr "L"),
      ("quantity", Val.vint 4)] rfl⟩

/-! Section: C7 -/

/-- C7 counterexample: the enriched cart price is not always non-negative.
A cart item resolving to a stored product whose price is -5 is enriched to
a view with price -5, a negative number. -/
theorem C7_counterexample :
    ∃ v : CartView,
      enrich_cart_item
        (fun s => if s == "0123456789abcdef01234567"
           then some ([("price", Val.vint (-5))] : RawDoc)
           else none)
        [("product_id", Val.vstr "0123456789abcdef01234567")]
        = some v
      ∧ v.price < 0 :=
  ⟨{ id := "None", product_id := Val.vstr "0123456789abcdef01234567",
     size := Val.vnull, quantity := Val.vint 1,
     title := Val.vnull, price := -5, image := Val.vnull },
   rfl, by norm_num⟩

/-- C7 (amended): the enriched cart price is 0 when the product is
unresolved, and otherwise is exactly the stored price coerced by float()
(absent price defaulting to 0) — the code applies no non-negativity clamp,
so a negative stored price yields a negative view price. -/
theorem C7_price_passthrough :
    ∀ (find : String → Option RawDoc) (it : RawDoc) (v : CartView),
      enrich_cart_item find it = some v →
      (resolveProduct find (pyGetD it "product_id" (Val.vstr "")) = none →
        v.price = 0)
      ∧ (∀ prod : RawDoc,
          resolveProduct find (pyGetD it "product_id" (Val.vstr "")) = some prod →
          pyFloat (pyGetD prod "price" (Val.vint 0)) = some v.price) := by
  intro find it v hv
  constructor
  · intro h
    simp only [enrich_cart_item, h] at hv
    cases hv
    rfl
  · intro prod h
    simp only [enrich_cart_item, h] at hv
    cases hf : pyFloat (pyGetD prod "price" (Val.vint 0)) with
    | none => rw [hf] at hv; exact absurd hv (by simp)
    | some q => rw [hf] at hv; cases hv; rfl

/-- C7 witness: the amended theorem applied at a store resolving the cart
item to a product with stored price 7. -/
theorem C7_witness :
    enrich_cart_item
        (fun s => if s == "0123456789abcdef01234567"
           then some ([("price", Val.vint 7)] : RawDoc)
           else none)
        [("product_id", Val.vstr "0123456789abcdef01234567")]
      = some { id := "None",
               product_id := Val.vstr "0123456789abcdef01234567",
               size := Val.vnull, quantity := Val.vint 1,
               title := Val.vnull, price := 7, image := Val.vnull }
    ∧ resolveProduct
        (fun s => if s == "0123456789abcdef01234567"
           then some ([("price", Val.vint 7)] : RawDoc)
           else none)
        (pyGetD [("product_id", Val.vstr "0123456789abcdef01234567")]
          "product_id" (Val.vstr ""))
        = some [("price", Val.vint 7)]
    ∧ pyFloat (pyGetD [("price", Val.vint 7)] "price" (Val.vint 0)) = some 7 :=
  ⟨rfl, rfl,
   (C7_price_passthrough
      (fun s => if s == "0123456789abcdef01234567"
         then some ([("price", Val.vint 7)] : RawDoc)
         else none)
      [("product_id", Val.vstr "0123456789abcdef01234567")]
      { id := "None", product_id := Val.vstr "0123456789abcdef01234567",
        size := Val.vnull, quantity := Val.vint 1,
        title := Val.vnull, price := 7, image := Val.vnull }
      rfl).2 [("price", Val.vint 7)] rfl⟩

/-! Section: C8 -/

/-- C8 counterexample: a request with quantity 0 (an integer below 1) is
accepted and the cart item with quantity 0 is inserted, so quantities
below 1 are not rejected. -/
theorem C8_counterexample :
    add_to_cart
      (fun s => if s == "0123456789abcdef01234567"
         then some ([] : RawDoc) else none)
      []
      { product_id := "0123456789abcdef01234567", size := "M", quantity := 0 }
      "aaaaaaaaaaaaaaaaaaaaaaaa"
    = some (AddResult.created "aaaaaaaaaaaaaaaaaaaaaaaa",
        [[("_id", Val.vobjid "aaaaaaaaaaaaaaaaaaaaaaaa"),
          ("product_id", Val.vstr "0123456789abcdef01234567"),
          ("size", Val.vstr "M"),
          ("quantity", Val.vint 0)]]) :=
  rfl

/-- C8 (amended): quantity defaults to 1 exactly when the field is omitted
from the request body, but no lower bound is enforced — an otherwise valid
request whose integer quantity is below 1 is still inserted, carrying that
quantity. -/
theorem C8_quantity_unchecked :
    (∀ (d : RawDoc) (req : AddToCartRequest),
      parseAddToCart d = some req → dictGet d "quantity" = none →
      req.quantity = 1)
    ∧ (∀ (find : String → Option RawDoc) (cart : List RawDoc)
        (body : AddToCartRequest) (newId : String) (prod : RawDoc)
        (l : List Val),
        body.quantity < 1 →
        isValidObjectId body.product_id = true →
        find body.product_id = some prod →
        effectiveSizes (pyGet prod "sizes") = Val.vlist l →
        l.any (matchesStr body.size) = true →
        add_to_cart find cart body newId
          = some (AddResult.created newId, cart ++ [cartItemDoc body newId])
        ∧ dictGet (cartItemDoc body newId) "quantity"
            = some (Val.vint body.quantity)) := by
  constructor
  · intro d req h hq
    unfold parseAddToCart at h
    split at h
    · rw [hq] at h
      cases h
      rfl
    · exact absurd h (by simp)
  · intro find cart body newId prod l _ hv hf hs hm
    refine ⟨?_, rfl⟩
    simp [add_to_cart, hv, hf, hs, pyMem, hm]

/-- C8 witness: the amended theorem at a concrete request with quantity -3
against a store whose product offers size M. -/
theorem C8_witness :
    parseAddToCart [("product_id", Val.vstr "0123456789abcdef01234567"),
                    ("size", Val.vstr "M")]
      = some { product_id := "0123456789abcdef01234567", size := "M",
               quantity := 1 }
    ∧ ({ product_id := "0123456789abcdef01234567", size := "M",
         quantity := 1 } : AddToCartRequest).quantity = 1
    ∧ ((-3 : Int) < 1
      ∧ add_to_cart
          (fun s => if s == "0123456789abcdef01234567"
             then some ([("sizes", Val.vlist [Val.vstr "M"])] : RawDoc)
             else none)
          []
          { product_id := "0123456789abcdef01234567", size := "M",
            quantity := -3 }
          "aaaaaaaaaaaaaaaaaaaaaaaa"
        = some (AddResult.created "aaaaaaaaaaaaaaaaaaaaaaaa",
            [cartItemDoc
              { product_id := "0123456789abcdef01234567", size := "M",
                quantity := -3 }
              "aaaaaaaaaaaaaaaaaaaaaaaa"])) :=
  ⟨rfl,
   C8_quantity_unchecked.1
     [("product_id", Val.vstr "0123456789abcdef01234567"),
      ("size", Val.vstr "M")]
     { product_id := "0123456789abcdef01234567", size := "M", quantity := 1 }
     rfl rfl,
   by decide,
   (C8_quantity_unchecked.2
      (fun s => if s == "0123456789abcdef01234567"
         then some ([("sizes", Val.vlist [Val.vstr "M"])] : RawDoc)
         else none)
      []
      { product_id := "0123456789abcdef01234567", size := "M", quantity := -3 }
      "aaaaaaaaaaaaaaaaaaaaaaaa"
      [("sizes", Val.vlist [Val.vstr "M"])]
      [Val.vstr "M"]
      (by decide) (by decide) rfl rfl rfl).1⟩

/-! Section: C9 -/

/-- C9: the GET /test diagnostic reports only the presence of the database
configuration variables, never their values — for any two environments that
both set DATABASE_URL (respectively DATABASE_NAME) to non-empty values, the
corresponding response field is the same, whatever the values are; the
handler itself is a total function, so it never raises. -/
theorem C9_env_presence_only :
    ∀ (db : Option DbHandle) (env1 env2 : String → Option String),
      (∀ v1 v2 : String,
        env1 "DATABASE_URL" = some v1 → v1 ≠ "" →
        env2 "DATABASE_URL" = some v2 → v2 ≠ "" →
        (test_database db env1).database_url
          = (test_database db env2).database_url)
      ∧ (∀ v1 v2 : String,
        env1 "DATABASE_NAME" = some v1 → v1 ≠ "" →
        env2 "DATABASE_NAME" = some v2 → v2 ≠ "" →
        (test_database db env1).database_name
          = (test_database db env2).database_name) := by
  intro db env1 env2
  constructor
  · intro v1 v2 h1 hn1 h2 hn2
    have e1 : envTruthy env1 "DATABASE_URL" = true := by
      unfold envTruthy; rw [h1]; simp [hn1]
    have e2 : envTruthy env2 "DATABASE_URL" = true := by
      unfold envTruthy; rw [h2]; simp [hn2]
    simp [test_database, e1, e2]
  · intro v1 v2 h1 hn1 h2 hn2
    have e1 : envTruthy env1 "DATABASE_NAME" = true := by
      unfold envTruthy; rw [h1]; simp [hn1]
    have e2 : envTruthy env2 "DATABASE_NAME" = true := by
      unfold envTruthy; rw [h2]; simp [hn2]
    simp [test_database, e1, e2]

/-- C9 witness: two concrete environments holding different non-empty
database URLs produce the identical presence-only field. -/
theorem C9_witness :
    ((fun k => if k == "DATABASE_URL"
        then some "mongodb://alpha:27017" else none) "DATABASE_URL"
      = some "mongodb://alpha:27017")
    ∧ ("mongodb://alpha:27017" : String) ≠ ""
    ∧ ((fun k => if k == "DATABASE_URL"
        then some "mongodb://beta:27017" else none) "DATABASE_URL"
      = some "mongodb://beta:27017")
    ∧ ("mongodb://beta:27017" : String) ≠ ""
    ∧ (test_database none
        (fun k => if k == "DATABASE_URL"
           then some "mongodb://alpha:27017" else none)).database_url
      = (test_database none
          (fun k => if k == "DATABASE_URL"
             then some "mongodb://beta:27017" else none)).database_url :=
  ⟨rfl, by decide, rfl, by decide,
   (C9_env_presence_only none
      (fun k => if k == "DATABASE_URL"
         then some "mongodb://alpha:27017" else none)
      (fun k => if k == "DATABASE_URL"
         then some "mongodb://beta:27017" else none)).1
     "mongodb://alpha:27017" "mongodb://beta:27017"
     rfl (by decide) rfl (by decide)⟩

/-! Section: C10 -/

/-- C10: add_to_cart is atomic on rejection — whenever it answers with a
400 bad-request or a 404 not-found, the cart collection is exactly what it
was before the call; every validation runs before the insert. -/
theorem C10_reject_atomic :
    ∀ (find : String → Option RawDoc) (cart : List RawDoc)
      (body : AddToCartRequest) (newId : String) (d : String)
      (cart2 : List RawDoc),
      (add_to_cart find cart body newId
          = some (AddResult.badRequest d, cart2)
        ∨ add_to_cart find cart body newId
          = some (AddResult.notFound d, cart2)) →
      cart2 = cart := by
  intro find cart body newId d cart2 h
  rcases h with h | h <;>
    (unfold add_to_cart at h
     split at h <;> try (split at h) <;> try (split at h) <;> try (split at h)
     all_goals simp_all)

/-- C10 witness: a rejected request (malformed product id) against a
concrete one-element cart leaves that cart unchanged. -/
theorem C10_witness :
    add_to_cart (fun _ => none)
        [[("size", Val.vstr "S")]]
        { product_id := "not-an-id", size := "M", quantity := 1 } "zz"
      = some (AddResult.badRequest "Invalid product id", [[("size", Val.vstr "S")]])
    ∧ ([[("size", Val.vstr "S")]] : List RawDoc) = [[("size", Val.vstr "S")]] :=
  ⟨rfl,
   C10_reject_atomic (fun _ => none) [[("size", Val.vstr "S")]]
     { product_id := "not-an-id", size := "M", quantity := 1 } "zz"
     "Invalid product id" [[("size", Val.vstr "S")]] (Or.inl rfl)⟩

end SwagStore
